import Mathlib

/-!
Verification development for the hass-duplicati integration
(custom_components/duplicati).  The Python sources are shallowly embedded
as executable Lean definitions: pure computations become Lean functions,
network traffic is abstracted as response oracles, and the control flow of
the relevant methods is translated statement by statement.  Machine floats
that only ever hold exact small values (timestamps, second counts) are
modelled as rationals, dictionaries as ordered association lists with
replace-in-place update (matching Python dict semantics for lookup and
insertion order), and dynamically-typed Python variables by sum types.
-/

namespace Duplicati

/-! ## Byte and dictionary utilities -/

/-- Bytes are natural numbers below 256; byte strings are lists. -/
abbrev Bytes := List Nat

/-- Lookup in a Python-style dict modelled as an ordered association list. -/
def dictGet {V : Type} (d : List (String × V)) (k : String) : Option V :=
  match d with
  | [] => none
  | (k', v) :: rest => if k' == k then some v else dictGet rest k

/-- Python dict update: replace the value in place when the key exists,
append otherwise (insertion order is preserved). -/
def dictInsert {V : Type} (d : List (String × V)) (k : String) (v : V) :
    List (String × V) :=
  match d with
  | [] => [(k, v)]
  | (k', v') :: rest =>
      if k' == k then (k, v) :: rest else (k', v') :: dictInsert rest k v

/-- Python dict.pop with default: drop every entry with the key. -/
def dictRemove {V : Type} (d : List (String × V)) (k : String) :
    List (String × V) :=
  d.filter (fun p => p.1 != k)

/-- Contiguous-sublist test on lists. -/
def listIsInfixOf (sub : List Char) : List Char → Bool
  | [] => sub.isEmpty
  | c :: rest => sub.isPrefixOf (c :: rest) || listIsInfixOf sub rest

/-- Substring test, modelling the Python in operator on strings. -/
def strContains (s sub : String) : Bool :=
  listIsInfixOf sub.data s.data

/-- Modelling str.startswith. -/
def strStartsWith (s p : String) : Bool :=
  p.data.isPrefixOf s.data

/-- Modelling str.endswith. -/
def strEndsWith (s suffix : String) : Bool :=
  suffix.data.isSuffixOf s.data

/-! ## SHA-256 (hashlib.sha256), over byte lists

Words are naturals reduced mod 2^32. -/

/-- Truncate to a 32-bit word. -/
def w32 (n : Nat) : Nat := n % 4294967296

/-- Rotate a 32-bit word right by n bits. -/
def rotr32 (x n : Nat) : Nat := w32 ((x >>> n) ||| (x <<< (32 - n)))

/-- Bitwise complement of a 32-bit word. -/
def not32 (x : Nat) : Nat := x ^^^ 4294967295

def sha256ch (x y z : Nat) : Nat := (x &&& y) ^^^ (not32 x &&& z)

def sha256maj (x y z : Nat) : Nat := (x &&& y) ^^^ (x &&& z) ^^^ (y &&& z)

def bigSigma0 (x : Nat) : Nat := rotr32 x 2 ^^^ rotr32 x 13 ^^^ rotr32 x 22

def bigSigma1 (x : Nat) : Nat := rotr32 x 6 ^^^ rotr32 x 11 ^^^ rotr32 x 25

def smallSigma0 (x : Nat) : Nat := rotr32 x 7 ^^^ rotr32 x 18 ^^^ (x >>> 3)

def smallSigma1 (x : Nat) : Nat := rotr32 x 17 ^^^ rotr32 x 19 ^^^ (x >>> 10)

/-- The 64 SHA-256 round constants of FIPS 180-4, written in decimal. -/
def sha256K : List Nat :=
  [1116352408, 1899447441, 3049323471, 3921009573, 961987163,
   1508970993, 2453635748, 2870763221, 3624381080, 310598401,
   607225278, 1426881987, 1925078388, 2162078206, 2614888103,
   3248222580, 3835390401, 4022224774, 264347078, 604807628,
   770255983, 1249150122, 1555081692, 1996064986, 2554220882,
   2821834349, 2952996808, 3210313671, 3336571891, 3584528711,
   113926993, 338241895, 666307205, 773529912, 1294757372,
   1396182291, 1695183700, 1986661051, 2177026350, 2456956037,
   2730485921, 2820302411, 3259730800, 3345764771, 3516065817,
   3600352804, 4094571909, 275423344, 430227734, 506948616,
   659060556, 883997877, 958139571, 1322822218, 1537002063,
   1747873779, 1955562222, 2024104815, 2227730452, 2361852424,
   2428436474, 2756734187, 3204031479, 3329325298]

/-- The SHA-256 initial hash value, written in decimal. -/
def sha256H0 : List Nat :=
  [1779033703, 3144134277, 1013904242, 2773480762,
   1359893119, 2600822924, 528734635, 1541459225]

/-- Big-endian 4-byte group to a 32-bit word. -/
def bytesToWords : Bytes → List Nat
  | a :: b :: c :: d :: rest => (((a * 256 + b) * 256 + c) * 256 + d) :: bytesToWords rest
  | _ => []

/-- A natural number as a fixed-width big-endian byte list. -/
def natToBytesBE (width n : Nat) : Bytes :=
  match width with
  | 0 => []
  | w + 1 => natToBytesBE w (n / 256) ++ [n % 256]

/-- One step of the message-schedule extension. -/
def sha256WStep (w : Array Nat) : Array Nat :=
  let n := w.size
  w.push (w32 (smallSigma1 (w.getD (n - 2) 0) + w.getD (n - 7) 0 +
               smallSigma0 (w.getD (n - 15) 0) + w.getD (n - 16) 0))

/-- Iterate a function n times. -/
def iterate {α : Type} (f : α → α) : Nat → α → α
  | 0, a => a
  | n + 1, a => iterate f n (f a)

/-- The 64-entry message schedule of one block. -/
def sha256W (block : Bytes) : Array Nat :=
  iterate sha256WStep 48 (bytesToWords block).toArray

/-- The eight working variables of the compression function. -/
structure Hash8 where
  a : Nat
  b : Nat
  c : Nat
  d : Nat
  e : Nat
  f : Nat
  g : Nat
  hh : Nat

/-- One round of the SHA-256 compression function. -/
def sha256Round (w k : Nat) (s : Hash8) : Hash8 :=
  let t1 := w32 (s.hh + bigSigma1 s.e + sha256ch s.e s.f s.g + k + w)
  let t2 := w32 (bigSigma0 s.a + sha256maj s.a s.b s.c)
  ⟨w32 (t1 + t2), s.a, s.b, s.c, w32 (s.d + t1), s.e, s.f, s.g⟩

/-- Compress one 64-byte block into the running hash. -/
def sha256Compress (h : List Nat) (block : Bytes) : List Nat :=
  let w := sha256W block
  let s0 : Hash8 :=
    ⟨h.getD 0 0, h.getD 1 0, h.getD 2 0, h.getD 3 0,
     h.getD 4 0, h.getD 5 0, h.getD 6 0, h.getD 7 0⟩
  let s := (List.range 64).foldl
    (fun s t => sha256Round (w.getD t 0) (sha256K.getD t 0) s) s0
  [w32 (h.getD 0 0 + s.a), w32 (h.getD 1 0 + s.b),
   w32 (h.getD 2 0 + s.c), w32 (h.getD 3 0 + s.d),
   w32 (h.getD 4 0 + s.e), w32 (h.getD 5 0 + s.f),
   w32 (h.getD 6 0 + s.g), w32 (h.getD 7 0 + s.hh)]

/-- SHA-256 padding: 0x80, zeros, and the 64-bit big-endian bit length. -/
def sha256Pad (msg : Bytes) : Bytes :=
  let r := msg.length % 64
  let zeros := (119 - r) % 64
  msg ++ [0x80] ++ List.replicate zeros 0 ++ natToBytesBE 8 (8 * msg.length)

/-- Fold the compression function over the given number of leading
64-byte blocks. -/
def sha256Blocks : Nat → List Nat → Bytes → List Nat
  | 0, h, _ => h
  | n + 1, h, msg => sha256Blocks n (sha256Compress h (msg.take 64)) (msg.drop 64)

/-- Serialize the eight hash words to the 32 digest bytes. -/
def wordsToBytes : List Nat → Bytes
  | [] => []
  | x :: xs => natToBytesBE 4 x ++ wordsToBytes xs

/-- SHA-256 digest of a byte string, as 32 bytes
(hashlib.sha256(data).digest()).  The padded message is a whole number of
64-byte blocks. -/
def sha256 (msg : Bytes) : Bytes :=
  let padded := sha256Pad msg
  wordsToBytes (sha256Blocks (padded.length / 64) sha256H0 padded)

/-! ## Hexadecimal and base64 -/

/-- Lowercase hex digit. -/
def hexChar (n : Nat) : Char :=
  "0123456789abcdef".data.getD n '0'

/-- Lowercase hex rendering of a byte string, as characters. -/
def bytesToHexChars : Bytes → List Char
  | [] => []
  | b :: rest => hexChar (b / 16) :: hexChar (b % 16) :: bytesToHexChars rest

/-- Lowercase hex rendering of a byte string. -/
def bytesToHex (bs : Bytes) : String :=
  String.mk (bytesToHexChars bs)

/-- Hex digest of a byte string (hashlib hexdigest: lowercase hex of the
SHA-256 digest). -/
def sha256Hexdigest (msg : Bytes) : String :=
  bytesToHex (sha256 msg)

/-- Value of a single hex digit, 0 for anything else. -/
def hexVal (c : Char) : Nat :=
  if '0' ≤ c ∧ c ≤ '9' then c.toNat - '0'.toNat
  else if 'a' ≤ c ∧ c ≤ 'f' then c.toNat - 'a'.toNat + 10
  else if 'A' ≤ c ∧ c ≤ 'F' then c.toNat - 'A'.toNat + 10
  else 0

/-- Pairs of hex digits back to bytes (bytes.fromhex on digest strings). -/
def hexPairsToBytes : List Char → Bytes
  | c1 :: c2 :: rest => (hexVal c1 * 16 + hexVal c2) :: hexPairsToBytes rest
  | _ => []

/-- bytes.fromhex of a hex string. -/
def bytesFromHex (s : String) : Bytes :=
  hexPairsToBytes s.data

/-- The base64 alphabet. -/
def b64Alphabet : List Char :=
  "ABCDEFGHIJKLMNOPQRSTUVWXYZabcdefghijklmnopqrstuvwxyz0123456789+/".data

/-- Index of a character in a character list. -/
def charIndex : List Char → Char → Option Nat
  | [], _ => none
  | a :: rest, c =>
      if a == c then some 0 else (charIndex rest c).map (· + 1)

/-- Index of a character in the base64 alphabet. -/
def b64Val (c : Char) : Option Nat :=
  charIndex b64Alphabet c

/-- base64-encode a byte string (base64.b64encode, standard padding). -/
def b64encode : Bytes → String
  | [] => ""
  | [a] =>
      String.mk [b64Alphabet.getD (a / 4) 'A',
                 b64Alphabet.getD (a % 4 * 16) 'A'] ++ "=="
  | [a, b] =>
      String.mk [b64Alphabet.getD (a / 4) 'A',
                 b64Alphabet.getD (a % 4 * 16 + b / 16) 'A',
                 b64Alphabet.getD (b % 16 * 4) 'A'] ++ "="
  | a :: b :: c :: rest =>
      String.mk [b64Alphabet.getD (a / 4) 'A',
                 b64Alphabet.getD (a % 4 * 16 + b / 16) 'A',
                 b64Alphabet.getD (b % 16 * 4 + c / 64) 'A',
                 b64Alphabet.getD (c % 64) 'A'] ++ b64encode rest

/-- Reassemble 6-bit groups into bytes, dropping the final partial byte,
as base64 decoding does. -/
def b64Regroup : List Nat → Nat → Nat → Bytes
  | [], _, _ => []
  | v :: vs, acc, nbits =>
      let acc' := acc * 64 + v
      let nbits' := nbits + 6
      if 8 ≤ nbits' then
        (acc' >>> (nbits' - 8)) % 256 :: b64Regroup vs (acc' % 2 ^ (nbits' - 8)) (nbits' - 8)
      else
        b64Regroup vs acc' nbits'

/-- base64-decode a string (base64.b64decode in its default lenient mode:
characters outside the alphabet, including padding, are discarded before
the 6-bit groups are reassembled). -/
def b64decode (s : String) : Bytes :=
  b64Regroup (s.data.filterMap b64Val) 0 0

/-! ## Challenge-response login password (C2)

auth_strategies.py, CookieAuthStrategy.authenticate step 3 (lines 67-74);
the identical computation appears in DuplicatiBackendAPI.__do_login
(api.py lines 225-232). -/

/-- Embedding of the salted-and-nonced password computation of the login
protocol.  The password argument is the UTF-8 byte encoding of the
password string (password.encode of the source); saltB64 and nonceB64 are
the base64 Salt and Nonce fields of the nonce response. -/
def calculate_nonced_pwd (passwordUtf8 : Bytes) (saltB64 nonceB64 : String) :
    String :=
  let salt := b64decode saltB64
  let nonce := b64decode nonceB64
  let salted_pwd := sha256Hexdigest (passwordUtf8 ++ salt)
  b64encode (sha256 (nonce ++ bytesFromHex salted_pwd))

/-- The formula stated by the specification for the POSTed password:
base64 of the SHA-256 digest of the decoded nonce followed by the bytes of
the lowercase hex digest of SHA-256 over the UTF-8 password and the
decoded salt. -/
def spec_nonced_pwd (passwordUtf8 : Bytes) (saltB64 nonceB64 : String) :
    String :=
  b64encode (sha256 (b64decode nonceB64 ++
    bytesFromHex (bytesToHex (sha256 (passwordUtf8 ++ b64decode saltB64)))))

/-! ## Cookie manager and HTTP client (http_client.py) -/

/-- StoredCookie of http_client.py.  Expiry timestamps (Python floats
holding epoch seconds) are modelled as rationals. -/
structure StoredCookie where
  value : String
  expires : Option ℚ := none
  path : String := "/"
  domain : Option String := none
  secure : Bool := false
  http_only : Bool := false
deriving DecidableEq, Repr

/-- The cookie store of CookieManager (a Python dict keyed by cookie
name). -/
abbrev CookieStore := List (String × StoredCookie)

/-- Request headers as an ordered dict. -/
abbrev Headers := List (String × String)

/-- The parts of a URL that the cookie logic inspects (yarl URL: scheme,
host without the port, path without the query). -/
structure UrlParts where
  scheme : String
  host : Option String
  path : String
deriving DecidableEq, Repr

/-- Split a character list at the first occurrence of a separator
sequence, dropping the separator. -/
def breakOnSub (sep : List Char) : List Char → Option (List Char × List Char)
  | [] => if sep.isEmpty then some ([], []) else none
  | c :: rest =>
      if sep.isPrefixOf (c :: rest) then some ([], (c :: rest).drop sep.length)
      else (breakOnSub sep rest).map (fun p => (c :: p.1, p.2))

/-- Parse an absolute URL string into the parts used by the cookie logic.
Models yarl URL for the URLs this client produces (no userinfo); the path
of a URL without one is the root path, and the query is not part of the
path. -/
def parseUrl (url : String) : UrlParts :=
  match breakOnSub "://".data url.data with
  | none => { scheme := "", host := none, path := url }
  | some (sch, rest) =>
      let netloc := rest.takeWhile (fun c => c ≠ '/' && c ≠ '?')
      let pathq := rest.drop netloc.length
      let path := pathq.takeWhile (fun c => c ≠ '?')
      { scheme := String.mk sch,
        host := if netloc.takeWhile (· ≠ ':') = [] then none
                else some (String.mk (netloc.takeWhile (· ≠ ':'))),
        path := if path = [] then "/" else String.mk path }

/-- Python truthiness of an optional string (None and the empty string are
falsy). -/
def truthyStrOpt : Option String → Bool
  | none => false
  | some s => s ≠ ""

/-- CookieManager.cookie_matches_request: domain suffix match, path prefix
match and the secure flag against the scheme.  Expiry is not inspected
here. -/
def cookie_matches_request (cookie : StoredCookie) (url : UrlParts) : Bool :=
  if truthyStrOpt cookie.domain && truthyStrOpt url.host &&
      !(strEndsWith (url.host.getD "") (cookie.domain.getD "")) then false
  else if !(strStartsWith url.path cookie.path) then false
  else if cookie.secure && url.scheme != "https" then false
  else true

/-- CookieManager.get_valid_cookies: the stored cookies whose constraints
match the request URL (http_client.py lines 158-177). -/
def get_valid_cookies (store : CookieStore) (url : String) : CookieStore :=
  store.filter (fun p => cookie_matches_request p.2 (parseUrl url))

/-- A Set-Cookie entry of a response, after the library-level parsing the
source delegates: the value already unquoted, the expires attribute
already parsed to an epoch timestamp (None for session cookies; entries
whose expires string fails to parse are outside this model). -/
structure RespCookie where
  key : String
  value : String
  expires : Option ℚ := none
  path : String := "/"
  domain : Option String := none
  secure : Bool := false
  http_only : Bool := false
deriving DecidableEq, Repr

/-- Whether a cookie's expiry lies strictly before the given time. -/
def cookieExpired (expires : Option ℚ) (now : ℚ) : Bool :=
  match expires with
  | some e => decide (e < now)
  | none => false

/-- CookieManager.extract_and_update_cookies: store each response cookie,
discarding one being set with an expiry already in the past, and replacing
an existing entry of the same name only when value or expiry changed. -/
def extract_and_update_cookies (store : CookieStore)
    (cookies : List RespCookie) (current_time : ℚ) : CookieStore :=
  cookies.foldl
    (fun st ck =>
      let cookie_data : StoredCookie :=
        { value := ck.value, expires := ck.expires, path := ck.path,
          domain := ck.domain, secure := ck.secure, http_only := ck.http_only }
      if cookieExpired cookie_data.expires current_time then
        dictRemove st ck.key
      else
        match dictGet st ck.key with
        | none => dictInsert st ck.key cookie_data
        | some stored =>
            if stored.value != cookie_data.value ||
                stored.expires != cookie_data.expires then
              dictInsert st ck.key cookie_data
            else st)
    store

/-- CookieManager.remove_expired_cookies. -/
def remove_expired_cookies (store : CookieStore) (now : ℚ) : CookieStore :=
  store.filter (fun p => !(cookieExpired p.2.expires now))

/-- Fold a headers dict into another, modelling dict.update. -/
def headersUpdate (base extra : Headers) : Headers :=
  extra.foldl (fun h p => dictInsert h p.1 p.2) base

/-- HttpClient.__prepare_request_headers (http_client.py lines 211-229):
merge the session headers, then attach the matching stored cookies as one
Cookie header, promoting the xsrf-token cookie to the X-XSRF-Token
header. -/
def prepare_request_headers (session_headers : Headers) (store : CookieStore)
    (url : String) (headers : Headers) : Headers :=
  let final_headers := headersUpdate headers session_headers
  let folded := (get_valid_cookies store url).foldl
    (fun (acc : String × Headers) p =>
      let cookie_string :=
        if acc.1 == "" then p.1 ++ "=" ++ p.2.value
        else acc.1 ++ "; " ++ p.1 ++ "=" ++ p.2.value
      let hdrs :=
        if p.1 == "xsrf-token" then dictInsert acc.2 "X-XSRF-Token" p.2.value
        else acc.2
      (cookie_string, hdrs))
    ("", final_headers)
  if folded.1 == "" then folded.2 else dictInsert folded.2 "Cookie" folded.1

/-- The wire-level response the network oracle yields for a URL. -/
structure NetResp where
  status : Nat
  location : String := ""
  cookies : List RespCookie := []
  body : String := ""

/-- The per-client state make_request threads: the cookie store and the
session-wide headers (self.headers). -/
structure HttpState where
  store : CookieStore
  session_headers : Headers
deriving DecidableEq, Repr

/-- The fields of the HttpResponse object the claims observe. -/
structure HttpRespE where
  status : Nat
  body : String
  url : String
  redirects : Nat
deriving DecidableEq, Repr

/-- The statuses make_request treats as redirects. -/
def redirectStatuses : List Nat := [301, 302, 303, 307, 308]

/-- URL(response.url).join(URL(location)) for the cases this client
exercises: an absolute location replaces the URL, an absolute-path
location is resolved against the current scheme and authority. -/
def urlJoin (base loc : String) : String :=
  if strContains loc "://" then loc
  else
    match breakOnSub "://".data base.data with
    | none => loc
    | some (sch, rest) =>
        let netloc := rest.takeWhile (fun c => c ≠ '/' && c ≠ '?')
        String.mk sch ++ "://" ++ String.mk netloc ++ loc

/-- The headers actually sent by one make_request step: the prepared
headers, updated once more with the session headers (line 374). -/
def request_headers_sent (st : HttpState) (url : String) (headers : Headers) :
    Headers :=
  headersUpdate (prepare_request_headers st.session_headers st.store url headers)
    st.session_headers

/-- The client state after one response is processed: cookies extracted
and updated, then expired entries purged (lines 393-394). -/
def state_after_response (st : HttpState) (r : NetResp) (now : ℚ) : HttpState :=
  { store := remove_expired_cookies
      (extract_and_update_cookies st.store r.cookies now) now,
    session_headers := st.session_headers }

/-- HttpClient.make_request (http_client.py lines 360-411) against a
network oracle mapping URLs to responses.  The source recursion carries no
depth bound, so the embedding takes explicit fuel; a none result means the
source call is still recursing after that many nested requests.  On a
redirect status the follow-up request is issued with the already-prepared
headers against the resolved Location, and the HttpResponse built from the
original redirect response is what the caller receives. -/
def make_request (net : String → NetResp) (now : ℚ) :
    Nat → HttpState → String → Headers → Nat → Option (HttpRespE × HttpState)
  | 0, _, _, _, _ => none
  | fuel + 1, st, url, headers, redirect_count =>
      let headers2 := request_headers_sent st url headers
      let r := net url
      let st1 := state_after_response st r now
      let http_response : HttpRespE :=
        { status := r.status, body := r.body, url := url,
          redirects := redirect_count }
      if r.status ∈ redirectStatuses then
        match make_request net now fuel st1 (urlJoin url r.location) headers2
            (redirect_count + 1) with
        | none => none
        | some (_, st2) => some (http_response, st2)
      else some (http_response, st1)

/-- A server that answers every request with a 302 redirect to itself. -/
def cyclicNet : String → NetResp :=
  fun _ => { status := 302, location := "http://server.local/" }

/-! ## Coordinator: monitoring states and listener cleanup
(coordinator.py) -/

/-- MonitoringState of coordinator.py. -/
inductive MonitoringState where
  | IDLE
  | SCHEDULED
  | ACTIVE
deriving DecidableEq, Repr

/-- The coordinator fields the timer lifecycle touches: the discrete
monitoring state and the two listener-cancel handles (None when no timer
of that kind is pending).  Cancel handles are modelled as numeric timer
tokens so that cancellations can be observed. -/
structure CoordListeners where
  monitoring_state : MonitoringState
  remove_scheduled_backup_listener : Option Nat
  remove_active_backup_monitor_listener : Option Nat
deriving DecidableEq, Repr

/-- _cleanup_scheduled_monitoring (coordinator.py lines 367-376): cancel
and clear the one-shot listener when present; reset to IDLE only from the
SCHEDULED state.  The second component lists the cancelled tokens. -/
def cleanup_scheduled_monitoring (s : CoordListeners) :
    CoordListeners × List Nat :=
  let step :=
    match s.remove_scheduled_backup_listener with
    | some tok => ({ s with remove_scheduled_backup_listener := none }, [tok])
    | none => (s, [])
  let s1 := step.1
  let s2 :=
    if s1.monitoring_state = MonitoringState.SCHEDULED then
      { s1 with monitoring_state := MonitoringState.IDLE }
    else s1
  (s2, step.2)

/-- _cleanup_active_backup_monitoring (coordinator.py lines 378-386):
cancel and clear the interval listener when present; always reset to
IDLE. -/
def cleanup_active_backup_monitoring (s : CoordListeners) :
    CoordListeners × List Nat :=
  let step :=
    match s.remove_active_backup_monitor_listener with
    | some tok =>
        ({ s with remove_active_backup_monitor_listener := none }, [tok])
    | none => (s, [])
  ({ step.1 with monitoring_state := MonitoringState.IDLE }, step.2)

/-- _cleanup_all_listeners (coordinator.py lines 388-392). -/
def cleanup_all_listeners (s : CoordListeners) : CoordListeners × List Nat :=
  let r1 := cleanup_scheduled_monitoring s
  let r2 := cleanup_active_backup_monitoring r1.1
  ({ r2.1 with monitoring_state := MonitoringState.IDLE }, r1.2 ++ r2.2)

/-- async_unload (coordinator.py lines 489-491). -/
def async_unload (s : CoordListeners) : CoordListeners × List Nat :=
  cleanup_all_listeners s

/-! ## Coordinator: deriving the published snapshot (C5) -/

/-- A published duration value.  The Python variable holds either the raw
timedelta (td) or the float returned by total_seconds (secs); both carry
the length in seconds. -/
inductive DurVal where
  | td (seconds : ℚ)
  | secs (seconds : ℚ)
deriving DecidableEq, Repr

/-- The metadata fields __get_backup_info reads, as parsed by
BackupDefinition.from_dict: datetimes become integer timestamps, the
timedelta duration its exact length in seconds, counts and sizes pass
through. -/
structure MetaFields where
  last_backup_finished : Option Int := none
  last_backup_duration : Option ℚ := none
  last_error_date : Option Int := none
  last_error_message : Option String := none
  source_files_size : Option Int := none
  source_files_count : Option Int := none
  target_files_size : Option Int := none
  target_files_count : Option Int := none
deriving DecidableEq, Repr

/-- The schedule fields __get_backup_info reads. -/
structure ScheduleFields where
  time : Option Int := none
deriving DecidableEq, Repr

/-- The snapshot entries __get_backup_info assembles (the METRIC_ keys of
const.py). -/
structure SensorData where
  next_execution : Option Int
  last_status : Bool
  last_execution : Option Int
  last_duration : Option DurVal
  last_target_size : Option Int
  last_target_files : Option Int
  last_source_size : Option Int
  last_source_files : Option Int
  last_error_message : Option String
deriving DecidableEq, Repr

/-- DuplicatiDataUpdateCoordinator.__get_backup_info (coordinator.py
lines 519-589), from the parsed backup definition onward; now is the
current UTC time.  A timedelta is converted with total_seconds only when
it is truthy, that is nonzero. -/
def get_backup_info (meta : MetaFields) (schedule : Option ScheduleFields)
    (now : Int) : SensorData :=
  let next_backup_execution : Option Int :=
    match schedule with
    | none => none
    | some sch =>
        match sch.time with
        | some t => if now < t then some t else none
        | none => none
  let error_case : Bool :=
    match meta.last_error_date with
    | none => false
    | some e =>
        match meta.last_backup_finished with
        | none => true
        | some f => decide (f < e)
  if error_case then
    { next_execution := next_backup_execution,
      last_status := true,
      last_execution := meta.last_error_date,
      last_duration := none,
      last_target_size := none,
      last_target_files := none,
      last_source_size := none,
      last_source_files := none,
      last_error_message := meta.last_error_message }
  else
    { next_execution := next_backup_execution,
      last_status := false,
      last_execution := meta.last_backup_finished,
      last_duration :=
        match meta.last_backup_duration with
        | none => none
        | some d => if d = 0 then some (DurVal.td d) else some (DurVal.secs d),
      last_target_size := meta.target_files_size,
      last_target_files := meta.target_files_count,
      last_source_size := meta.source_files_size,
      last_source_files := meta.source_files_count,
      last_error_message := some "-" }

/-- The specification's rule for whether the last run failed: an error
timestamp exists and either no finish timestamp exists or the error is
strictly later. -/
def spec_last_run_error_flag (meta : MetaFields) : Bool :=
  match meta.last_error_date, meta.last_backup_finished with
  | none, _ => false
  | some _, none => true
  | some e, some f => decide (f < e)

/-! ## Coordinator: start_monitoring_and_wait (C8) -/

/-- The snapshot entries start_monitoring_and_wait inspects in
self.data: the last-status flag (present only when the snapshot holds the
METRIC_LAST_STATUS key) and the error message (none when the
METRIC_LAST_ERROR_MESSAGE key is absent, in which case the literal
Unknown error is used). -/
structure WaitData where
  last_status : Option Bool := none
  error_message : Option String := none
deriving DecidableEq, Repr

/-- Listener bookkeeping events of start_monitoring_and_wait. -/
inductive WaitEv where
  | addListener
  | removeListener
deriving DecidableEq, Repr

/-- The three ways start_monitoring_and_wait can come back. -/
inductive CoordWaitResult where
  | ok
  | jobFailed (message : String)
  | timedOut
deriving DecidableEq, Repr

/-- DuplicatiDataUpdateCoordinator.start_monitoring_and_wait
(coordinator.py lines 447-487).  completed says whether the completion
event fired within the wait-for timeout; data is self.data when the wait
ends.  The returned event list records listener registration and removal
in order: the removal sits in a finally block in the source and thus runs
on the success path, the job-failed raise and the timeout raise alike. -/
def start_monitoring_and_wait (completed : Bool) (data : Option WaitData) :
    CoordWaitResult × List WaitEv :=
  if completed then
    let result :=
      match data with
      | some d =>
          match d.last_status with
          | some true =>
              CoordWaitResult.jobFailed (d.error_message.getD "Unknown error")
          | _ => CoordWaitResult.ok
      | none => CoordWaitResult.ok
    (result, [WaitEv.addListener, WaitEv.removeListener])
  else
    (CoordWaitResult.timedOut, [WaitEv.addListener, WaitEv.removeListener])

/-! ## Backend API client (api.py) -/

/-- A response as __make_api_request observes it: status code, reason
phrase, the last path segment of the response URL, and the parsed JSON
object when the content type is JSON. -/
structure ApiResp where
  status : Nat
  reason : String := ""
  urlName : String := ""
  isJson : Bool := false
  body : List (String × String) := []
deriving DecidableEq, Repr

/-- Result of __get_xsrf_token (api.py lines 151-187): on success a fresh
token with the expiration parsed from its cookie and the response URL
name; ok is false when retrieval fails and ClientResponseError is
raised. -/
structure TokenFetchResult where
  ok : Bool
  token : String := ""
  expiration : Option Nat := none
  urlName : String := ""
deriving DecidableEq, Repr

/-- The session state of DuplicatiBackendAPI.  The source keeps cookie
expirations as epoch-second strings compared against now
lexicographically; they are modelled as numbers, which agrees on the
equal-width digit strings strftime produces. -/
structure ApiStateData where
  password : Option String := none
  xsrf_token : Option String := none
  xsrf_token_expiration : Option Nat := none
  session_nonce : Option String := none
  session_nonce_expiration : Option Nat := none
  session_auth : Option String := none
  session_auth_expiration : Option Nat := none
deriving DecidableEq, Repr

/-- The network environment of one API call: the response to the n-th
API request, the result of the n-th token retrieval, and the session
state after a login (none when the login raises). -/
structure ApiEnv where
  apiResp : Nat → ApiResp
  tokenFetch : Nat → TokenFetchResult
  login : Option ApiStateData

/-- Observable actions of one __make_api_request call: a login, a token
retrieval, or an HTTP request to the endpoint carrying the given
X-XSRF-Token header. -/
inductive ApiEv where
  | login
  | tokenFetch
  | apiRequest (xsrfHeader : Option String)
deriving DecidableEq, Repr

/-- The error outcomes of __make_api_request. -/
inductive ApiCallError where
  | invalidAuth (message : String)
  | tokenFetchFailed
  | loginFailed
  | valueError
deriving DecidableEq, Repr

/-- Result, event trace and final session state of one call. -/
structure ApiOutcome where
  result : Except ApiCallError (List (String × String))
  events : List ApiEv
  state : ApiStateData

/-- Truthiness-aware session validity test of api.py lines 330-340
(login needed when it holds). -/
def session_login_needed (st : ApiStateData) (now : Nat) : Bool :=
  !truthyStrOpt st.session_auth ||
    (match st.session_auth_expiration with
     | some e => decide (e ≤ now)
     | none => false) ||
    !truthyStrOpt st.session_nonce ||
    (match st.session_nonce_expiration with
     | some e => decide (e ≤ now)
     | none => false)

/-- XSRF-token refresh condition of api.py lines 353-355. -/
def xsrf_refresh_needed (st : ApiStateData) (now : Nat) : Bool :=
  !truthyStrOpt st.xsrf_token ||
    (match st.xsrf_token_expiration with
     | some e => decide (e ≤ now)
     | none => false)

/-- The session cookies attached when authentication is enabled (api.py
lines 343-348). -/
def session_cookie_header (st : ApiStateData) (headers : Headers) : Headers :=
  let cookies : List String :=
    (match st.session_auth with
     | some a => if a ≠ "" then ["session-auth=" ++ a] else []
     | none => []) ++
    (match st.session_nonce with
     | some n => if n ≠ "" then ["session-nonce=" ++ n] else []
     | none => [])
  match cookies with
  | [] => headers
  | c :: rest =>
      dictInsert headers "Cookie" (rest.foldl (fun acc x => acc ++ "; " ++ x) c)

/-- The body of DuplicatiBackendAPI.__make_api_request (api.py lines
310-411) against the environment; the missing-XSRF-token retry is the
continuation retryk, which is absent exactly when retry_on_missing_token
is False. reqIdx and fetchIdx number the requests and token retrievals
already issued, so the oracles can be consulted in order. -/
def api_request_body (env : ApiEnv) (now : Nat)
    (retryk : Option (Nat → Nat → ApiStateData → Headers → ApiOutcome))
    (reqIdx fetchIdx : Nat) (st0 : ApiStateData) (headers0 : Headers) :
    ApiOutcome :=
  -- Ensure authentication if enabled
  let auth : Except ApiOutcome (ApiStateData × List ApiEv × Headers) :=
    match st0.password with
    | none => Except.ok (st0, [], headers0)
    | some _ =>
        if session_login_needed st0 now then
          match env.login with
          | none =>
              Except.error
                ⟨Except.error ApiCallError.loginFailed, [ApiEv.login], st0⟩
          | some st1 =>
              Except.ok (st1, [ApiEv.login], session_cookie_header st1 headers0)
        else Except.ok (st0, [], session_cookie_header st0 headers0)
  match auth with
  | Except.error out => out
  | Except.ok (st1, ev1, headers1) =>
    -- Ensure that XSRF token is used if available
    let tok : Except ApiOutcome (ApiStateData × List ApiEv × Nat) :=
      if xsrf_refresh_needed st1 now then
        let tf := env.tokenFetch fetchIdx
        if tf.ok then
          let st2 := { st1 with xsrf_token := some tf.token,
                                xsrf_token_expiration := tf.expiration }
          if strContains tf.urlName "login" then
            Except.error
              ⟨Except.error (ApiCallError.invalidAuth "No password provided"),
               ev1 ++ [ApiEv.tokenFetch], st2⟩
          else Except.ok (st2, ev1 ++ [ApiEv.tokenFetch], fetchIdx + 1)
        else
          Except.error
            ⟨Except.error ApiCallError.tokenFetchFailed,
             ev1 ++ [ApiEv.tokenFetch], st1⟩
      else Except.ok (st1, ev1, fetchIdx)
    match tok with
    | Except.error out => out
    | Except.ok (st2, ev2, fetchIdx2) =>
      let headers2 :=
        match st2.xsrf_token with
        | some t => if t ≠ "" then dictInsert headers1 "X-XSRF-Token" t else headers1
        | none => headers1
      -- Make the API request
      let resp := env.apiResp reqIdx
      let ev3 := ev2 ++ [ApiEv.apiRequest (dictGet headers2 "X-XSRF-Token")]
      if resp.status == 401 then
        ⟨Except.error (ApiCallError.invalidAuth "Incorrect password provided"),
         ev3, st2⟩
      else if strContains resp.urlName "login" then
        ⟨Except.error (ApiCallError.invalidAuth "No password provided"),
         ev3, st2⟩
      else if resp.status == 400 && strContains resp.reason "Missing XSRF Token"
          && retryk.isSome then
        -- Handle missing XSRF token: refresh once and retry
        let tf := env.tokenFetch fetchIdx2
        if tf.ok then
          let st3 := { st2 with xsrf_token := some tf.token,
                                xsrf_token_expiration := tf.expiration }
          let headers3 :=
            match st3.xsrf_token with
            | some t =>
                if t ≠ "" then dictInsert headers2 "X-XSRF-Token" t else headers2
            | none => headers2
          match retryk with
          | some k =>
              let rec_out := k (reqIdx + 1) (fetchIdx2 + 1) st3 headers3
              ⟨rec_out.result, ev3 ++ [ApiEv.tokenFetch] ++ rec_out.events,
               rec_out.state⟩
          | none =>
              if resp.isJson then ⟨Except.ok resp.body, ev3, st2⟩
              else ⟨Except.error ApiCallError.valueError, ev3, st2⟩
        else
          ⟨Except.error ApiCallError.tokenFetchFailed,
           ev3 ++ [ApiEv.tokenFetch], st2⟩
      else
        -- Parse and return JSON response
        if resp.isJson then ⟨Except.ok resp.body, ev3, st2⟩
        else ⟨Except.error ApiCallError.valueError, ev3, st2⟩

/-- __make_api_request with a retry budget: budget 1 is the public entry
(retry_on_missing_token True), budget 0 the recursive retry call. -/
def make_api_request (env : ApiEnv) (now : Nat) :
    Nat → Nat → Nat → ApiStateData → Headers → ApiOutcome
  | 0, reqIdx, fetchIdx, st, headers =>
      api_request_body env now none reqIdx fetchIdx st headers
  | budget + 1, reqIdx, fetchIdx, st, headers =>
      api_request_body env now (some (make_api_request env now budget))
        reqIdx fetchIdx st headers

/-! ## Backend API client: create_backup (C6) -/

/-- Network-visible actions of create_backup: the progress query of
get_progress_state and the run POST. -/
inductive CreateEv where
  | progressQuery
  | runPost
deriving DecidableEq, Repr

/-- Error outcomes of create_backup. -/
inductive CreateError where
  | valueError (message : String)
  | alreadyRunning
  | apiError (message : String)
  | progressFailed (message : String)
deriving DecidableEq, Repr

/-- The progress fields create_backup consults. -/
structure ProgressLite where
  backup_id : String := ""
  phase : String := ""
deriving DecidableEq, Repr

/-- The environment of one create_backup call: what get_progress_state
comes back with, and the response of the run POST (none when the request
itself raises). -/
structure CreateEnv where
  progress : Except String ProgressLite
  runResponse : Option (List (String × String))

/-- DuplicatiBackendAPI.validate_backup_id: re.match of one or more
digits anchored at the start. -/
def validate_backup_id (s : String) : Bool :=
  match s.data with
  | [] => false
  | c :: _ => c.isDigit

/-- The phases create_backup accepts as not-running. -/
def terminalPhases : List String := ["No active backup", "Backup_Complete", "Error"]

/-- DuplicatiBackendAPI.create_backup (api.py lines 444-477): validate
the id, query the progress state, refuse when the phase is non-terminal,
and only then POST the run request. -/
def create_backup (env : CreateEnv) (backup_id : String) :
    Except CreateError (List (String × String)) × List CreateEv :=
  if !validate_backup_id backup_id then
    (Except.error (CreateError.valueError "Invalid backup ID format"), [])
  else
    match env.progress with
    | Except.error e =>
        (Except.error (CreateError.progressFailed e), [CreateEv.progressQuery])
    | Except.ok progress_state =>
        if !(terminalPhases.contains progress_state.phase) then
          (Except.error CreateError.alreadyRunning, [CreateEv.progressQuery])
        else
          match env.runResponse with
          | none =>
              (Except.error (CreateError.apiError "request failed"),
               [CreateEv.progressQuery, CreateEv.runPost])
          | some response =>
              match dictGet response "Error" with
              | some msg =>
                  (Except.error (CreateError.apiError msg),
                   [CreateEv.progressQuery, CreateEv.runPost])
              | none =>
                  (Except.ok response,
                   [CreateEv.progressQuery, CreateEv.runPost])

/-! ## Backup metadata parsing and serialization (model.py, C9)

BackupDefinition.Backup.Metadata.from_dict and to_dict with their private
datetime and duration helpers.  Vendor payload values are strings; a JSON
null behaves like an absent key, since dict.get yields None for both. -/

/-- Value of a two-digit group. -/
def digit2 (a b : Char) : Nat := (a.toNat - 48) * 10 + (b.toNat - 48)

/-- A parsed metadata datetime. -/
structure MetaDatetime where
  year : Nat
  month : Nat
  day : Nat
  hour : Nat
  minute : Nat
  second : Nat
deriving DecidableEq, Repr

/-- Gregorian leap year. -/
def isLeapYear (y : Nat) : Bool :=
  (y % 4 == 0 && y % 100 != 0) || y % 400 == 0

/-- Days in a month. -/
def daysInMonth (y m : Nat) : Nat :=
  if m ∈ [1, 3, 5, 7, 8, 10, 12] then 31
  else if m ∈ [4, 6, 9, 11] then 30
  else if isLeapYear y then 29
  else 28

/-- Metadata.__parse_datetime: strptime against the vendor format
%Y%m%dT%H%M%SZ, including the calendar validation strptime performs;
none models the ValueError strptime raises. -/
def parse_datetime (s : String) : Option MetaDatetime :=
  match s.data with
  | [y1, y2, y3, y4, mo1, mo2, d1, d2, 'T', h1, h2, mi1, mi2, s1, s2, 'Z'] =>
      if [y1, y2, y3, y4, mo1, mo2, d1, d2, h1, h2, mi1, mi2, s1, s2].all
          Char.isDigit then
        let dt : MetaDatetime :=
          { year := digit2 y1 y2 * 100 + digit2 y3 y4,
            month := digit2 mo1 mo2,
            day := digit2 d1 d2,
            hour := digit2 h1 h2,
            minute := digit2 mi1 mi2,
            second := digit2 s1 s2 }
        if 1 ≤ dt.year ∧ 1 ≤ dt.month ∧ dt.month ≤ 12 ∧ 1 ≤ dt.day ∧
            dt.day ≤ daysInMonth dt.year dt.month ∧ dt.hour ≤ 23 ∧
            dt.minute ≤ 59 ∧ dt.second ≤ 59 then
          some dt
        else none
      else none
  | _ => none

/-- Render a natural zero-padded to the given width. -/
def padNum (width n : Nat) : String :=
  let s := toString n
  String.mk (List.replicate (width - s.length) '0') ++ s

/-- Metadata.__datetime_to_string: strftime %Y%m%dT%H%M%SZ. -/
def datetime_to_string (dt : MetaDatetime) : String :=
  padNum 4 dt.year ++ padNum 2 dt.month ++ padNum 2 dt.day ++ "T" ++
    padNum 2 dt.hour ++ padNum 2 dt.minute ++ padNum 2 dt.second ++ "Z"

/-- A nonempty all-digit string as a number (the canonical inputs of the
Python int and float conversions in the duration parser). -/
def strToNatDigits (s : String) : Option Nat :=
  if s.data ≠ [] && s.data.all Char.isDigit then
    some (s.data.foldl (fun a c => a * 10 + (c.toNat - 48)) 0)
  else none

/-- Split a character list on a separator, keeping empty pieces, as the
Python str.split with an explicit separator does. -/
def splitChars (p : Char → Bool) : List Char → List (List Char)
  | [] => [[]]
  | c :: rest =>
      match splitChars p rest with
      | [] => [[]]
      | g :: gs => if p c then [] :: g :: gs else (c :: g) :: gs

/-- str.split with an explicit one-character separator. -/
def pySplit (s : String) (sep : Char) : List String :=
  (splitChars (fun c => c = sep) s.data).map String.mk

/-- str.strip with no argument: drop whitespace from both ends. -/
def pyStrip (s : String) : String :=
  String.mk
    (((s.data.dropWhile Char.isWhitespace).reverse.dropWhile
      Char.isWhitespace).reverse)

/-- Metadata.__parse_duration: split on colons into hours, minutes and
seconds, the seconds part optionally carrying a fractional-digits field
that is normalized to six microsecond digits.  The result is the
timedelta as total microseconds; none models the ValueError of a
malformed string. -/
def parse_duration (s : String) : Option Nat :=
  match pySplit s ':' with
  | p0 :: p1 :: p2 :: _ =>
      match strToNatDigits p0, strToNatDigits p1 with
      | some hours, some minutes =>
          if strContains p2 "." then
            match pySplit p2 '.' with
            | [ss, ms] =>
                match strToNatDigits ss, strToNatDigits ms with
                | some seconds, some mnum =>
                    match strToNatDigits
                        (String.mk ((toString mnum ++ "000000").data.take 6)) with
                    | some micro =>
                        some (((hours * 60 + minutes) * 60 + seconds) * 1000000
                          + micro)
                    | none => none
                | _, _ => none
            | _ => none
          else
            match strToNatDigits p2 with
            | some seconds =>
                some (((hours * 60 + minutes) * 60 + seconds) * 1000000)
            | none => none
      | _, _ => none
  | _ => none

/-- Round the nonnegative fraction num/den to the nearest integer, ties
to even: the rounding the Python format specifier .0f performs on the
exact values arising here. -/
def roundHalfEvenFrac (num den : Nat) : Nat :=
  let f := num / den
  let r2 := 2 * (num % den)
  if r2 < den then f
  else if den < r2 then f + 1
  else if f % 2 = 0 then f
  else f + 1

/-- The format f-string 02.0f applied to the nonnegative fraction
num/den. -/
def fmt02Frac (num den : Nat) : String :=
  padNum 2 (roundHalfEvenFrac num den)

/-- Metadata.__duration_to_string on a timedelta of the given total
microseconds: the source renders total_seconds / 3600,
(total_seconds % 3600) / 60 and total_seconds % 60 each with the rounding
format 02.0f; those three fractions are expressed here exactly over the
microsecond total. -/
def duration_to_string (micros : Nat) : String :=
  fmt02Frac micros 3600000000 ++ ":" ++
    fmt02Frac (micros % 3600000000) 60000000 ++ ":" ++
    fmt02Frac (micros % 60000000) 1000000

/-- Metadata.__truncate_error_message: greedy word-wise truncation to 255
characters including the truncation indicator. -/
def truncate_words (avail : Nat) : List String → String → String
  | [], acc => acc
  | w :: ws, acc =>
      if (acc ++ w).length ≤ avail then truncate_words avail ws (acc ++ w ++ " ")
      else acc

/-- Metadata.__truncate_error_message. -/
def truncate_error_message (message : String) : String :=
  let truncation_indicator := "... [truncated]"
  let available_length := 255 - truncation_indicator.length
  if message.length ≤ available_length then message
  else
    let words := (pySplit message ' ').filter (fun w => w ≠ "")
    pyStrip (truncate_words available_length words "") ++ truncation_indicator

/-- The Metadata dataclass of model.py: datetimes parsed, durations as
total microseconds, the remaining fields kept verbatim. -/
structure Metadata where
  last_backup_date : Option MetaDatetime := none
  backup_list_count : Option String := none
  total_quota_space : Option String := none
  free_quota_space : Option String := none
  assigned_quota_space : Option String := none
  target_files_size : Option String := none
  target_files_count : Option String := none
  target_size_string : Option String := none
  source_files_size : Option String := none
  source_files_count : Option String := none
  source_size_string : Option String := none
  last_backup_started : Option MetaDatetime := none
  last_backup_finished : Option MetaDatetime := none
  last_backup_duration : Option Nat := none
  last_compact_duration : Option Nat := none
  last_compact_started : Option MetaDatetime := none
  last_compact_finished : Option MetaDatetime := none
  last_error_date : Option MetaDatetime := none
  last_error_message : Option String := none
deriving DecidableEq, Repr

/-- A vendor metadata payload: the present keys with their string
values. -/
abbrev MetaPayload := List (String × String)

/-- Parse an optional datetime field; an absent value stays absent and a
malformed one fails the whole parse. -/
def parseOptDatetime (v : Option String) : Option (Option MetaDatetime) :=
  match v with
  | none => some none
  | some s => (parse_datetime s).map some

/-- Parse an optional duration field. -/
def parseOptDuration (v : Option String) : Option (Option Nat) :=
  match v with
  | none => some none
  | some s => (parse_duration s).map some

/-- Metadata.from_dict (model.py lines 65-94): datetime-suffixed fields
are parsed, duration-suffixed fields are parsed, the error message is
truncated, and everything else passes through. -/
def Metadata.from_dict (data : MetaPayload) : Option Metadata := do
  let last_backup_date ← parseOptDatetime (dictGet data "LastBackupDate")
  let last_backup_started ← parseOptDatetime (dictGet data "LastBackupStarted")
  let last_backup_finished ← parseOptDatetime (dictGet data "LastBackupFinished")
  let last_compact_started ← parseOptDatetime (dictGet data "LastCompactStarted")
  let last_compact_finished ← parseOptDatetime (dictGet data "LastCompactFinished")
  let last_error_date ← parseOptDatetime (dictGet data "LastErrorDate")
  let last_backup_duration ← parseOptDuration (dictGet data "LastBackupDuration")
  let last_compact_duration ← parseOptDuration (dictGet data "LastCompactDuration")
  some
    { last_backup_date := last_backup_date,
      backup_list_count := dictGet data "BackupListCount",
      total_quota_space := dictGet data "TotalQuotaSpace",
      free_quota_space := dictGet data "FreeQuotaSpace",
      assigned_quota_space := dictGet data "AssignedQuotaSpace",
      target_files_size := dictGet data "TargetFilesSize",
      target_files_count := dictGet data "TargetFilesCount",
      target_size_string := dictGet data "TargetSizeString",
      source_files_size := dictGet data "SourceFilesSize",
      source_files_count := dictGet data "SourceFilesCount",
      source_size_string := dictGet data "SourceSizeString",
      last_backup_started := last_backup_started,
      last_backup_finished := last_backup_finished,
      last_backup_duration := last_backup_duration,
      last_compact_duration := last_compact_duration,
      last_compact_started := last_compact_started,
      last_compact_finished := last_compact_finished,
      last_error_date := last_error_date,
      last_error_message :=
        (dictGet data "LastErrorMessage").map truncate_error_message }

/-- Metadata.to_dict (model.py lines 96-114): every mapped key appears,
datetimes and durations rendered back to strings, None values staying
None. -/
def Metadata.to_dict (m : Metadata) : List (String × Option String) :=
  [("LastBackupDate", m.last_backup_date.map datetime_to_string),
   ("BackupListCount", m.backup_list_count),
   ("TotalQuotaSpace", m.total_quota_space),
   ("FreeQuotaSpace", m.free_quota_space),
   ("AssignedQuotaSpace", m.assigned_quota_space),
   ("TargetFilesSize", m.target_files_size),
   ("TargetFilesCount", m.target_files_count),
   ("TargetSizeString", m.target_size_string),
   ("SourceFilesSize", m.source_files_size),
   ("SourceFilesCount", m.source_files_count),
   ("SourceSizeString", m.source_size_string),
   ("LastBackupStarted", m.last_backup_started.map datetime_to_string),
   ("LastBackupFinished", m.last_backup_finished.map datetime_to_string),
   ("LastBackupDuration", m.last_backup_duration.map duration_to_string),
   ("LastCompactDuration", m.last_compact_duration.map duration_to_string),
   ("LastCompactStarted", m.last_compact_started.map datetime_to_string),
   ("LastCompactFinished", m.last_compact_finished.map datetime_to_string),
   ("LastErrorDate", m.last_error_date.map datetime_to_string),
   ("LastErrorMessage", m.last_error_message)]

/-! ## Concrete instances used by witnesses and counterexamples -/

/-- A stored cookie whose expiry, epoch second 5, lies in the past at
time 10. -/
def c4CexCookie : StoredCookie := { value := "v", expires := some 5 }

/-- A store holding only that cookie. -/
def c4CexStore : CookieStore := [("sid", c4CexCookie)]

/-- A re-issued session cookie with a changed value and expiry. -/
def c4NewCookie : RespCookie :=
  { key := "sid", value := "v2", expires := some 99 }

/-- Metadata whose only set field is a zero last-backup duration. -/
def c5CexMeta : MetaFields := { last_backup_duration := some 0 }

/-- Session state holding a valid XSRF token and no password. -/
def c3St : ApiStateData := { xsrf_token := some "t0" }

/-- An environment whose every API response is the missing-XSRF-token
400 and whose token retrieval succeeds with a fresh token. -/
def c3Env : ApiEnv :=
  { apiResp := fun _ =>
      { status := 400, reason := "Missing XSRF Token", urlName := "Backups" },
    tokenFetch := fun _ => { ok := true, token := "t1" },
    login := none }

/-- A progress environment reporting a running backup for id 3. -/
def c6Env : CreateEnv :=
  { progress := Except.ok { backup_id := "3", phase := "Backup_Running" },
    runResponse := some [] }

/-- A server redirecting the entry URL once to a page that answers
200. -/
def c10Net : String → NetResp := fun u =>
  if u = "http://a/x" then { status := 302, location := "/y" }
  else { status := 200, body := "ok" }

/-- An empty client state. -/
def c10St : HttpState := { store := [], session_headers := [] }

/-- The metadata payload of the duration round-trip failure. -/
def c9Payload : MetaPayload := [("LastBackupDuration", "00:00:45")]

/-! ## Supporting lemmas -/

theorem dictGet_dictInsert_self {V : Type} (d : List (String × V))
    (k : String) (v : V) : dictGet (dictInsert d k v) k = some v := by
  induction d with
  | nil => simp [dictInsert, dictGet]
  | cons p rest ih =>
      obtain ⟨k', v'⟩ := p
      by_cases h : k' == k
      · simp [dictInsert, dictGet, h]
      · simp only [dictInsert, dictGet, h]
        simpa [dictGet, h] using ih

theorem hexVal_hexChar (n : Nat) (h : n < 16) : hexVal (hexChar n) = n := by
  interval_cases n <;> rfl

theorem hexPairsToBytes_bytesToHexChars (bs : Bytes) (h : ∀ b ∈ bs, b < 256) :
    hexPairsToBytes (bytesToHexChars bs) = bs := by
  induction bs with
  | nil => rfl
  | cons b rest ih =>
      have hb : b < 256 := h b (by simp)
      have h1 : b / 16 < 16 := by omega
      have h2 : b % 16 < 16 := Nat.mod_lt _ (by norm_num)
      have hdm := Nat.div_add_mod b 16
      simp only [bytesToHexChars, hexPairsToBytes,
        hexVal_hexChar _ h1, hexVal_hexChar _ h2]
      rw [show b / 16 * 16 + b % 16 = b by omega,
        ih (fun x hx => h x (List.mem_cons_of_mem _ hx))]

theorem natToBytesBE_lt (w n : Nat) : ∀ b ∈ natToBytesBE w n, b < 256 := by
  induction w generalizing n with
  | zero => simp [natToBytesBE]
  | succ w ih =>
      intro b hb
      simp only [natToBytesBE, List.mem_append, List.mem_singleton] at hb
      rcases hb with hb | hb
      · exact ih _ b hb
      · subst hb; exact Nat.mod_lt _ (by norm_num)

theorem wordsToBytes_lt (ws : List Nat) : ∀ b ∈ wordsToBytes ws, b < 256 := by
  induction ws with
  | nil => simp [wordsToBytes]
  | cons x xs ih =>
      intro b hb
      simp only [wordsToBytes, List.mem_append] at hb
      rcases hb with hb | hb
      · exact natToBytesBE_lt 4 x b hb
      · exact ih b hb

theorem sha256_bytes_lt (msg : Bytes) : ∀ b ∈ sha256 msg, b < 256 :=
  wordsToBytes_lt _

theorem data_mk (l : List Char) : (String.mk l).data = l := rfl

/-- The hex round trip inside the login derivation cancels, so the POSTed
password is the base64 of the double hash itself. -/
theorem calculate_nonced_pwd_eq_double_hash (passwordUtf8 : Bytes)
    (saltB64 nonceB64 : String) :
    calculate_nonced_pwd passwordUtf8 saltB64 nonceB64 =
      b64encode (sha256 (b64decode nonceB64 ++
        sha256 (passwordUtf8 ++ b64decode saltB64))) := by
  simp only [calculate_nonced_pwd, sha256Hexdigest, bytesToHex, bytesFromHex]
  rw [hexPairsToBytes_bytesToHexChars _ (sha256_bytes_lt _)]

set_option maxRecDepth 100000 in
/-- Sanity check of the SHA-256 embedding against the standard
single-block test vector. -/
theorem sha256_test_vector :
    sha256Hexdigest [97, 98, 99] =
      "ba7816bf8f01cfea414140de5dae2223b00361a396177a9cb410ff61f20015ad" := by
  decide

/-! ## Claim theorems -/

/-- C1: from every monitoring state, unloading the coordinator leaves no
pending timer: both listeners end up absent and cancelled exactly once
each (the scheduled one first), the state is IDLE, and running the
cleanup again on the resulting state changes nothing and cancels
nothing. -/
theorem C1_unload_cancels_all_timers (s : CoordListeners) :
    (async_unload s).1.remove_scheduled_backup_listener = none ∧
    (async_unload s).1.remove_active_backup_monitor_listener = none ∧
    (async_unload s).1.monitoring_state = MonitoringState.IDLE ∧
    (async_unload s).2 =
      s.remove_scheduled_backup_listener.toList ++
        s.remove_active_backup_monitor_listener.toList ∧
    async_unload (async_unload s).1 = ((async_unload s).1, []) := by
  obtain ⟨ms, sched, act⟩ := s
  cases sched <;> cases act <;> cases ms <;>
    simp [async_unload, cleanup_all_listeners, cleanup_scheduled_monitoring,
      cleanup_active_backup_monitoring]

/-- C2: for every password (as UTF-8 bytes) and base64 salt and nonce,
the login computes the POSTed password as the base64 of SHA-256 over the
decoded nonce followed by the bytes of the lowercase hex digest of
SHA-256 over the password and the decoded salt - exactly the
specification's formula. -/
theorem C2_login_password_derivation (passwordUtf8 : Bytes)
    (saltB64 nonceB64 : String) :
    calculate_nonced_pwd passwordUtf8 saltB64 nonceB64 =
      spec_nonced_pwd passwordUtf8 saltB64 nonceB64 := by
  rfl

/-- C5 counterexample: a metadata record with no error timestamp and a
zero last-backup duration is published with the raw timedelta rather than
a float of seconds, because a zero timedelta is falsy; the claim's
normalized-to-seconds value is not what appears in the snapshot. -/
theorem C5_counterexample :
    (get_backup_info c5CexMeta none 0).last_status = false ∧
    c5CexMeta.last_backup_duration = some 0 ∧
    (get_backup_info c5CexMeta none 0).last_duration = some (DurVal.td 0) ∧
    ¬ (get_backup_info c5CexMeta none 0).last_duration = some (DurVal.secs 0) := by
  refine ⟨rfl, rfl, rfl, ?_⟩
  decide

/-- C5 (amended): the published error flag is exactly the specification's
rule (error timestamp exists and either no finish timestamp exists or the
error is strictly later); when it is set, the last-execution field is the
error timestamp and duration, sizes and counts are absent; when it is
clear, the last-execution field is the finish timestamp and a present
duration is normalized to float seconds when nonzero but passed through
as the raw timedelta when zero. -/
theorem C5_snapshot_error_flag (meta : MetaFields)
    (schedule : Option ScheduleFields) (now : Int) :
    (get_backup_info meta schedule now).last_status =
      spec_last_run_error_flag meta ∧
    (if spec_last_run_error_flag meta then
      (get_backup_info meta schedule now).last_execution =
          meta.last_error_date ∧
        (get_backup_info meta schedule now).last_duration = none ∧
        (get_backup_info meta schedule now).last_target_size = none ∧
        (get_backup_info meta schedule now).last_target_files = none ∧
        (get_backup_info meta schedule now).last_source_size = none ∧
        (get_backup_info meta schedule now).last_source_files = none
    else
      (get_backup_info meta schedule now).last_execution =
          meta.last_backup_finished ∧
        (get_backup_info meta schedule now).last_duration =
          (match meta.last_backup_duration with
           | none => none
           | some d =>
               if d = 0 then some (DurVal.td d) else some (DurVal.secs d)) ∧
        (get_backup_info meta schedule now).last_target_size =
          meta.target_files_size ∧
        (get_backup_info meta schedule now).last_target_files =
          meta.target_files_count ∧
        (get_backup_info meta schedule now).last_source_size =
          meta.source_files_size ∧
        (get_backup_info meta schedule now).last_source_files =
          meta.source_files_count) := by
  obtain ⟨fin, dur, err, msg, ss, sc, ts, tc⟩ := meta
  cases err <;> cases fin <;>
    simp [get_backup_info, spec_last_run_error_flag] <;>
    split <;> simp_all

/-- C7: the redirect-following recursion of make_request carries no bound
check, so against a server whose every answer is a redirect to itself the
call never returns, whatever recursion depth it is granted - the claimed
bounded hop count and termination on cyclic redirect chains fail. -/
theorem C7_redirect_recursion_never_returns (fuel : Nat) (st : HttpState)
    (url : String) (headers : Headers) (redirect_count : Nat) :
    make_request cyclicNet 0 fuel st url headers redirect_count = none := by
  induction fuel generalizing st url headers redirect_count with
  | zero => rfl
  | succ n ih => simp [make_request, cyclicNet, redirectStatuses, ih]

/-- C8: start_monitoring_and_wait registers the completion listener once
and removes it on every exit path - on the timeout raise, on the
job-failed raise and on normal success - so the event trace is always
register followed by remove. -/
theorem C8_wait_listener_always_removed (completed : Bool)
    (data : Option WaitData) (message : String) :
    (start_monitoring_and_wait completed data).2 =
      [WaitEv.addListener, WaitEv.removeListener] ∧
    (start_monitoring_and_wait false data).1 = CoordWaitResult.timedOut ∧
    (start_monitoring_and_wait true
        (some { last_status := some true, error_message := some message })).1 =
      CoordWaitResult.jobFailed message ∧
    (start_monitoring_and_wait true
        (some { last_status := some false, error_message := some message })).1 =
      CoordWaitResult.ok := by
  cases completed <;> simp [start_monitoring_and_wait]

/-- C9: the metadata round trip fails on durations: the payload whose
LastBackupDuration is 00:00:45 parses successfully, but serializing the
parsed record back yields 00:01:45, because duration_to_string renders
the fractional hour and minute totals with a rounding format instead of
extracting the components. -/
theorem C9_duration_round_trip_bug :
    dictGet c9Payload "LastBackupDuration" = some "00:00:45" ∧
    (Metadata.from_dict c9Payload).map
        (fun m => dictGet m.to_dict "LastBackupDuration") =
      some (some (some "00:01:45")) ∧
    ¬ (Metadata.from_dict c9Payload).map
        (fun m => dictGet m.to_dict "LastBackupDuration") =
      some (some (dictGet c9Payload "LastBackupDuration")) := by
  refine ⟨rfl, by decide, by decide⟩

/-- C4 counterexample: at request time 10 the stored cookie sid carries
expiry 5, which is already past, yet get_valid_cookies presents it for a
matching URL - a cookie whose expiry precedes the request time is
attached to the request, against the claim. -/
theorem C4_counterexample :
    dictGet (get_valid_cookies c4CexStore "http://example.com/") "sid" =
      some c4CexCookie ∧
    c4CexCookie.expires = some 5 ∧ ((5 : ℚ) < 10) := by
  refine ⟨by decide, by decide, by norm_num⟩

/-- C4 (amended): the cookies attached to an outgoing request are exactly
the stored cookies whose domain, path and secure constraints match the
request URL - expiry is not consulted when the request is prepared, and
expired entries are dropped only when a response is processed; and a
record call that re-issues a cookie of the same name with a changed value
or expiry replaces the stored entry (last write wins). -/
theorem C4_presented_cookies (store : CookieStore) (url : String)
    (k : String) (c : StoredCookie) (ck : RespCookie) (now : ℚ)
    (hfresh : cookieExpired ck.expires now = false)
    (hchanged : match dictGet store ck.key with
      | some old => ¬ old.value = ck.value ∨ ¬ old.expires = ck.expires
      | none => True) :
    ((k, c) ∈ get_valid_cookies store url ↔
      (k, c) ∈ store ∧ cookie_matches_request c (parseUrl url) = true) ∧
    dictGet (extract_and_update_cookies store [ck] now) ck.key =
      some { value := ck.value, expires := ck.expires, path := ck.path,
             domain := ck.domain, secure := ck.secure,
             http_only := ck.http_only } := by
  constructor
  · simp [get_valid_cookies, List.mem_filter]
  · cases hd : dictGet store ck.key with
    | none =>
        simp [extract_and_update_cookies, hfresh, hd, dictGet_dictInsert_self]
    | some old =>
        have hor : ¬ old.value = ck.value ∨ ¬ old.expires = ck.expires := by
          rw [hd] at hchanged; exact hchanged
        rcases hor with hne | hne <;>
          simp [extract_and_update_cookies, hfresh, hd, hne,
            dictGet_dictInsert_self]

/-- C4 witness: the matching stored cookie is presented regardless of
expiry, and re-recording the sid cookie with a new value and expiry at
time 10 replaces the stored entry. -/
theorem C4_presented_cookies_witness :
    (("sid", c4CexCookie) ∈ get_valid_cookies c4CexStore "http://example.com/" ↔
      ("sid", c4CexCookie) ∈ c4CexStore ∧
        cookie_matches_request c4CexCookie (parseUrl "http://example.com/") =
          true) ∧
    dictGet (extract_and_update_cookies c4CexStore [c4NewCookie] 10) "sid" =
      some { value := "v2", expires := some 99, path := "/", domain := none,
             secure := false, http_only := false } :=
  C4_presented_cookies c4CexStore "http://example.com/" "sid" c4CexCookie
    c4NewCookie 10 (by decide) (Or.inl (by decide))

/-- C6: create_backup consults the progress endpoint before any
state-changing request; when the reported phase is none of the terminal
phases it raises the already-running condition, and its network trace is
exactly the progress query - the run POST is never issued. -/
theorem C6_start_refuses_running (env : CreateEnv) (backup_id : String)
    (p : ProgressLite)
    (hid : validate_backup_id backup_id = true)
    (hprog : env.progress = Except.ok p)
    (hphase : ¬ p.phase ∈ terminalPhases) :
    create_backup env backup_id =
      (Except.error CreateError.alreadyRunning, [CreateEv.progressQuery]) := by
  simp [create_backup, hid, hprog, hphase]

/-- C6 witness: starting backup 3 while the progress endpoint reports
Backup_Running raises already-running without the run POST. -/
theorem C6_start_refuses_running_witness :
    create_backup c6Env "3" =
      (Except.error CreateError.alreadyRunning, [CreateEv.progressQuery]) :=
  C6_start_refuses_running c6Env "3"
    { backup_id := "3", phase := "Backup_Running" } (by decide) rfl (by decide)

/-- C10: when a response carries a redirect status, make_request issues
the follow-up request against the resolved Location with freshly prepared
headers, but hands the caller the HttpResponse built from the original
redirect response; the redirect target's response only contributes the
threaded client state. -/
theorem C10_redirect_response_returned (net : String → NetResp) (now : ℚ)
    (fuel : Nat) (st : HttpState) (url : String) (headers : Headers)
    (redirect_count : Nat) (pr : HttpRespE × HttpState)
    (hred : (net url).status ∈ redirectStatuses)
    (hrec : make_request net now fuel (state_after_response st (net url) now)
        (urlJoin url (net url).location) (request_headers_sent st url headers)
        (redirect_count + 1) = some pr) :
    make_request net now (fuel + 1) st url headers redirect_count =
      some ({ status := (net url).status, body := (net url).body, url := url,
              redirects := redirect_count }, pr.2) := by
  obtain ⟨r2, st2⟩ := pr
  simp only [make_request]
  rw [if_pos hred, hrec]

/-- C10 witness: a concrete 302 hop to a page answering 200 comes back to
the caller as the 302 response itself. -/
theorem C10_redirect_response_returned_witness :
    make_request c10Net 0 2 c10St "http://a/x" [] 0 =
      some ({ status := 302, body := "", url := "http://a/x",
              redirects := 0 }, c10St) :=
  C10_redirect_response_returned c10Net 0 1 c10St "http://a/x" [] 0
    ({ status := 200, body := "ok", url := "http://a/y", redirects := 1 },
      c10St)
    (by decide) (by decide)

/-- C3: with a valid XSRF token in hand and no login round trip needed, a
400 response whose reason contains Missing XSRF Token triggers exactly
one token refresh followed by exactly one retried request carrying the
refreshed token header; when the retry fails with the same 400 reason (a
non-JSON error response) the call surfaces the parse error and issues no
third request. -/
theorem C3_missing_xsrf_retry (env : ApiEnv) (now : Nat) (st : ApiStateData)
    (t0 t1 : String)
    (hpw : st.password = none)
    (htok : st.xsrf_token = some t0) (ht0 : ¬ t0 = "")
    (hexp : st.xsrf_token_expiration = none)
    (hr1s : (env.apiResp 0).status = 400)
    (hr1m : strContains (env.apiResp 0).reason "Missing XSRF Token" = true)
    (hr1l : strContains (env.apiResp 0).urlName "login" = false)
    (htf : env.tokenFetch 0 = { ok := true, token := t1 })
    (ht1 : ¬ t1 = "")
    (hr2s : (env.apiResp 1).status = 400)
    (hr2m : strContains (env.apiResp 1).reason "Missing XSRF Token" = true)
    (hr2l : strContains (env.apiResp 1).urlName "login" = false)
    (hr2j : (env.apiResp 1).isJson = false) :
    (make_api_request env now 1 0 0 st []).events =
      [ApiEv.apiRequest (some t0), ApiEv.tokenFetch,
       ApiEv.apiRequest (some t1)] ∧
    (make_api_request env now 1 0 0 st []).result =
      Except.error ApiCallError.valueError := by
  simp [make_api_request, api_request_body, xsrf_refresh_needed,
    session_login_needed, truthyStrOpt, hpw, htok, hexp, ht0, hr1s, hr1m,
    hr1l, htf, ht1, hr2s, hr2m, hr2l, hr2j, dictInsert, dictGet]

/-- C3 witness: the concrete environment whose responses are all the
missing-token 400 and whose refresh yields the fresh token t1. -/
theorem C3_missing_xsrf_retry_witness :
    (make_api_request c3Env 7 1 0 0 c3St []).events =
      [ApiEv.apiRequest (some "t0"), ApiEv.tokenFetch,
       ApiEv.apiRequest (some "t1")] ∧
    (make_api_request c3Env 7 1 0 0 c3St []).result =
      Except.error ApiCallError.valueError :=
  C3_missing_xsrf_retry c3Env 7 c3St "t0" "t1" rfl rfl (by decide) rfl rfl
    (by decide) (by decide) rfl (by decide) rfl (by decide) (by decide) rfl

end Duplicati
